import Mathlib

/-!
Verification of the frame-tree navigation engine in
`src/packages/happy-dom/src/browser/BrowserFrameUtility.ts`.

The mutable object graph of the source (frames, windows, pages, contexts,
one browser) is embedded as an explicit state record `BrowserState`: frames
and windows live in arenas indexed by `Nat`, and every mutation of the
source becomes a state-transforming function.  The operations of
`BrowserFrameUtility` (`closeFrame`, `goto`, `isBrowserNavigationAllowed`,
`isDetachedMainFrame`, `getRelativeURL`) are translated statement by
statement from the source.
-/

namespace HappyDom

/-- A thrown JavaScript error / DOMException: its message and its name. -/
structure DOMExceptionData where
  message : String
  name : String
deriving Repr, DecidableEq

/-- Modelled from the spec: the window/browsing-context object owned by a
frame (§3 `window`).  The source file only touches the fields below:
`closed` (set on teardown), the location (read by `getRelativeURL`),
`document.referrer` (set from navigation options), the per-window
ready-state tracker (`_readyStateManager.startTask/endTask`, counted here
as `tasksStarted`/`tasksEnded`), and the error channel that
`WindowErrorUtility.dispatchError` appends to (`dispatchedErrors`). -/
structure WindowData where
  closed : Bool
  locationHref : String
  referrer : String
  tasksStarted : Nat
  tasksEnded : Nat
  dispatchedErrors : List String
deriving Repr, DecidableEq

/-- Modelled from the spec: a freshly constructed window — "the new blank
context stands as the loaded document" (§4.4 step 6), so its location is
`about:blank`, nothing is closed, no tasks are open and no errors have
been dispatched. -/
def blankWindow : WindowData :=
  { closed := false
    locationHref := "about:blank"
    referrer := ""
    tasksStarted := 0
    tasksEnded := 0
    dispatchedErrors := [] }

/-- Modelled from the spec: a Frame record (§3).  `parentFrame`,
`childFrames`, `window`, `page` and `url` are the fields of the data model;
`content` is the document content installed by a successful fetch
(`frame.content = responseText`); `asyncTaskManagerAlive` records whether
`frame._asyncTaskManager.destroy()` has been called; `detached` stands for
the source's `frame instanceof DetachedBrowserFrame` variant test.
`url` is a plain field ("current location string"), read and written
exactly where the source reads and writes `frame.url`. -/
structure FrameData where
  parentFrame : Option Nat
  childFrames : List Nat
  window : Option Nat
  page : Option Nat
  url : String
  content : String
  asyncTaskManagerAlive : Bool
  detached : Bool
deriving Repr, DecidableEq

/-- The frame record used for arena slots that hold no frame. -/
def defaultFrameData : FrameData :=
  { parentFrame := none
    childFrames := []
    window := none
    page := none
    url := ""
    content := ""
    asyncTaskManagerAlive := false
    detached := false }

/-- Modelled from the spec: a Page owns a main frame and belongs to a
context (§3, glossary). -/
structure PageData where
  mainFrame : Nat
  context : Nat
deriving Repr, DecidableEq

/-- Modelled from the spec: a Context owns an ordered list of pages
(glossary); `isDetachedMainFrame` reads `context.pages[0]`. -/
structure ContextData where
  pages : List Nat
deriving Repr, DecidableEq

/-- The browser settings consumed by the source: the navigation-policy
token list `browserNavigation` and the two feature flags. -/
structure BrowserSettings where
  browserNavigation : List String
  disableJavaScriptEvaluation : Bool
  disableErrorCapturing : Bool
deriving Repr, DecidableEq

/-- The whole mutable world of the source file: arenas of frames and
windows (functions from ids, with allocation counters), the immutable
page/context/browser containment chain, the registry of windows that
`WindowBrowserSettingsReader` holds settings for, and a counter of fetch
invocations (incremented exactly when `frame.window.fetch` is called, so
"the fetch capability was never invoked" is observable). -/
structure BrowserState where
  frames : Nat → FrameData
  numFrames : Nat
  windows : Nat → WindowData
  numWindows : Nat
  pages : Nat → PageData
  contexts : Nat → ContextData
  defaultContext : Nat
  settings : BrowserSettings
  settingsRegistry : List Nat
  fetchCount : Nat

/-- Replace the frame record at index `i`. -/
def updFrame (s : BrowserState) (i : Nat) (fd : FrameData) : BrowserState :=
  { s with frames := fun j => if j = i then fd else s.frames j }

/-- Replace the window record at index `i`. -/
def updWindowAt (s : BrowserState) (i : Nat) (wd : WindowData) : BrowserState :=
  { s with windows := fun j => if j = i then wd else s.windows j }

/-- Modelled from the spec: `readyStateManager.startTask()` of the
per-window ready-state tracker (§4.3) — one more task opened. -/
def startTask (s : BrowserState) (w : Nat) : BrowserState :=
  updWindowAt s w { s.windows w with tasksStarted := (s.windows w).tasksStarted + 1 }

/-- Modelled from the spec: `readyStateManager.endTask()` (§4.3) — one
more task closed. -/
def endTask (s : BrowserState) (w : Nat) : BrowserState :=
  updWindowAt s w { s.windows w with tasksEnded := (s.windows w).tasksEnded + 1 }

/-- Modelled from the spec: `WindowErrorUtility.dispatchError(window, e)`
(§4.5) forwards the error to the window's error channel. -/
def dispatchErrorTo (s : BrowserState) (w : Nat) (e : DOMExceptionData) : BrowserState :=
  updWindowAt s w
    { s.windows w with dispatchedErrors := (s.windows w).dispatchedErrors ++ [e.message] }

/-- `frame.window.closed = true` (source line 39 / line 120). -/
def markWindowClosed (s : BrowserState) (w : Nat) : BrowserState :=
  updWindowAt s w { s.windows w with closed := true }

/-- `frame._asyncTaskManager.destroy()` (source line 40 / line 121). -/
def destroyTaskManager (s : BrowserState) (f : Nat) : BrowserState :=
  updFrame s f { s.frames f with asyncTaskManagerAlive := false }

/-- `WindowBrowserSettingsReader.removeSettings(frame.window)`
(source line 41 / line 122). -/
def removeSettingsFor (s : BrowserState) (w : Nat) : BrowserState :=
  { s with settingsRegistry := s.settingsRegistry.erase w }

/-- `frame.url = url` (source line 110 / line 137). -/
def setFrameURL (s : BrowserState) (f : Nat) (url : String) : BrowserState :=
  updFrame s f { s.frames f with url := url }

/-- The `TypeError` JavaScript raises when a member of `null` is read. -/
def nullAccessError : DOMExceptionData :=
  { message := "Cannot read properties of null", name := "TypeError" }

/-- The `TypeError` thrown by `new URL(...)` on an unparsable input. -/
def invalidURLError : DOMExceptionData :=
  { message := "Invalid URL", name := "TypeError" }

/-- `DOMExceptionNameEnum.uriMismatchError`. -/
def uriMismatchErrorName : String := "URIMismatchError"

/-!  A small model of the WHATWG `URL` collaborator (`import { URL } from
'url'`), which is outside this repository.  -/

/-- `s.startsWith(p)` as a character-list prefix test (kept executable
down to the kernel, unlike the byte-level `String.startsWith`). -/
def strStartsWith (s p : String) : Bool :=
  p.toList.isPrefixOf s.toList

/-- How `new URL` can fail on an input taken alone: the input has no
(valid) scheme at all, or it has a scheme but is malformed (an authority
marker `//` followed by an empty host). -/
inductive URLParseError where
  | noScheme
  | invalid
deriving Repr, DecidableEq

/-- The parsed components of an absolute URL that the source consumes:
`href`, `origin` (compared by `isBrowserNavigationAllowed`) and `hostname`
(tested for emptiness by `getRelativeURL`). -/
structure ParsedURL where
  href : String
  origin : String
  hostname : String
deriving Repr, DecidableEq

/-- Split a character list at the first `':'`. -/
def splitScheme : List Char → Option (List Char × List Char)
  | [] => none
  | c :: cs =>
    if c = ':' then some ([], cs)
    else (splitScheme cs).map (fun p => (c :: p.1, p.2))

def isSchemeChar (c : Char) : Bool :=
  c.isAlphanum || c == '+' || c == '-' || c == '.'

def isAuthorityEnd (c : Char) : Bool :=
  c == '/' || c == '?' || c == '#'

/-- Modelled from the spec: `new URL(input)` of the external WHATWG URL
collaborator, simplified to what the source observes.  `scheme://host...`
inputs yield an origin `scheme://authority` and a hostname (the authority
up to a port separator); scheme-only inputs with an opaque path (such as
`about:blank` or `javascript:...`) parse with origin `"null"`; an input
without a scheme, or with an empty authority after `//`, fails to parse
(in JavaScript: `new URL` throws a `TypeError`). -/
def parseAbsoluteURL (s : String) : Except URLParseError ParsedURL :=
  match splitScheme s.toList with
  | none => .error .noScheme
  | some (schemeChars, rest) =>
    if !schemeChars.isEmpty && (schemeChars.headD ' ').isAlpha && schemeChars.all isSchemeChar then
      match rest with
      | '/' :: '/' :: rest2 =>
        let authority := rest2.takeWhile (fun c => !isAuthorityEnd c)
        if authority.isEmpty then .error .invalid
        else
          .ok { href := s
                origin := String.mk schemeChars ++ "://" ++ String.mk authority
                hostname := String.mk (authority.takeWhile (fun c => c ≠ ':')) }
      | _ => .ok { href := s, origin := "null", hostname := "" }
    else .error .noScheme

/-- Modelled from the spec: `new URL(url, base).href` — resolution of a
navigation target against the frame's current location (§4.1), simplified:
an absolute input stands alone; a malformed absolute input fails no matter
the base; an input without a scheme resolves against the base when the
base is an absolute URL with a real origin (path merging simplified to a
join on the base origin), and fails when the base is missing, unparsable
or opaque (such as `about:blank`). -/
def resolveURLModel (url : String) (baseHref : String) : Option String :=
  match parseAbsoluteURL url with
  | .ok u => some u.href
  | .error .invalid => none
  | .error .noScheme =>
    match parseAbsoluteURL baseHref with
    | .ok b =>
      if b.origin = "null" then none
      else if strStartsWith url "/" then some (b.origin ++ url)
      else some (b.origin ++ "/" ++ url)
    | .error _ => none

/-- `location.hostname` of a window, read off its `href`. -/
def locationHostname (wd : WindowData) : String :=
  match parseAbsoluteURL wd.locationHref with
  | .ok u => u.hostname
  | .error _ => ""

/-- `BrowserFrameUtility.getRelativeURL(frame, url)` (source lines
219-241): default an empty input to `about:blank`, return `about:` and
`javascript:` inputs unchanged, otherwise resolve against
`frame.window.location`; on resolution failure throw a DOMException whose
message depends on whether the location has a non-empty hostname. -/
def getRelativeURL (s : BrowserState) (f : Nat) (inputUrl : String) :
    Except DOMExceptionData String :=
  let url := if inputUrl = "" then "about:blank" else inputUrl
  if strStartsWith url "about:" || strStartsWith url "javascript:" then .ok url
  else
    match (s.frames f).window with
    | none => .error nullAccessError
    | some w =>
      let loc := s.windows w
      match resolveURLModel url loc.locationHref with
      | some href => .ok href
      | none =>
        if locationHostname loc = "" then
          .error { message := "Failed to construct URL from string \"" ++ url ++
                     "\" relative to URL \"" ++ loc.locationHref ++ "\"."
                   name := uriMismatchErrorName }
        else
          .error { message := "Failed to construct URL from string \"" ++ url ++ "\"."
                   name := uriMismatchErrorName }

/-- `frame.parentFrame` handling of `closeFrame` (source lines 28-33):
look the frame up in its parent's `childFrames` and splice it out. -/
def detachFromParent (s : BrowserState) (f : Nat) : BrowserState :=
  match (s.frames f).parentFrame with
  | none => s
  | some p =>
    match ((s.frames p).childFrames).findIdx? (fun c => c == f) with
    | none => s
    | some i =>
      updFrame s p { s.frames p with childFrames := ((s.frames p).childFrames).eraseIdx i }

/-- The tail of `closeFrame` (source lines 39-43): mark the window closed,
destroy the async task manager, drop the cached settings, null out `page`
and `window`.  When `frame.window` is already absent at this point (only
possible when the recursive close of the children reached the frame
itself, a cyclic arena the frame-tree invariant rules out) the source
would throw a TypeError; the model makes the window update a no-op and
still nulls the fields. -/
def closeFinalize (s : BrowserState) (f : Nat) : BrowserState :=
  match (s.frames f).window with
  | none =>
    updFrame (destroyTaskManager s f) f
      { (destroyTaskManager s f).frames f with page := none, window := none }
  | some w =>
    let s1 := markWindowClosed s w
    let s2 := destroyTaskManager s1 f
    let s3 := removeSettingsFor s2 w
    updFrame s3 f { s3.frames f with page := none, window := none }

mutual

/-- `BrowserFrameUtility.closeFrame(frame)` (source lines 23-44), with the
recursion made total by a fuel argument: no-op when `frame.window` is
absent; otherwise splice the frame out of its parent's `childFrames`,
recursively close the entries of `frame.childFrames`, and finalize. -/
def closeFrameAux : Nat → BrowserState → Nat → BrowserState
  | 0, s, _ => s
  | fuel + 1, s, f =>
    match (s.frames f).window with
    | none => s
    | some _ => closeFinalize (closeChildrenLoop fuel (detachFromParent s f) f 0) f

/-- The `for (const childFrame of frame.childFrames)` loop of the source
(lines 35-37 and 115-117), with JavaScript array-iterator semantics: at
each step the index is compared against the *current* length of the live
`childFrames` array and the element at that index in the *current* array
is closed — so an element spliced out of the array by its own close shifts
its following siblings under the iterator. -/
def closeChildrenLoop : Nat → BrowserState → Nat → Nat → BrowserState
  | 0, s, _, _ => s
  | fuel + 1, s, f, i =>
    if i < ((s.frames f).childFrames).length then
      closeChildrenLoop fuel (closeFrameAux fuel s (((s.frames f).childFrames).getD i 0)) f (i + 1)
    else s

end

/-- Fuel that dominates the recursion depth of `closeFrame` on any arena
of `numFrames` frames. -/
def closeFuel (s : BrowserState) : Nat :=
  (s.numFrames + 1) * (s.numFrames + 1)

/-- `BrowserFrameUtility.closeFrame(frame)`. -/
def closeFrame (s : BrowserState) (f : Nat) : BrowserState :=
  closeFrameAux (closeFuel s) s f

/-- `IGoToOptions`: optional referrer hints. -/
structure GoToOptionsData where
  referrer : Option String
  referrerPolicy : Option String
deriving Repr, DecidableEq

/-- Empty navigation options (`options` not supplied). -/
def noOpts : GoToOptionsData := { referrer := none, referrerPolicy := none }

/-- The response object handed back by the fetch capability (`IResponse`);
its body text travels separately in `FetchOutcome`. -/
structure ResponseData where
  statusCode : Nat
deriving Repr, DecidableEq

/-- Oracle for the one `frame.window.fetch` call of a navigation and the
`response.text()` read that follows it: the fetch itself can reject, the
body read can reject after a response was obtained, or both can succeed. -/
inductive FetchOutcome where
  | fetchError (e : DOMExceptionData)
  | textError (response : ResponseData) (e : DOMExceptionData)
  | success (response : ResponseData) (text : String)
deriving Repr, DecidableEq

/-- `response || null` after the catch block (source line 157): the
last-known response object if one exists. -/
def lastResponse : FetchOutcome → Option ResponseData
  | .fetchError _ => none
  | .textError r _ => some r
  | .success r _ => some r

/-- The message of the error a failing fetch outcome carries. -/
def fetchFailureMessage : FetchOutcome → String
  | .fetchError e => e.message
  | .textError _ e => e.message
  | .success _ _ => ""

/-- The deferred `javascript:` evaluation scheduled with
`setTimeout` (source lines 90-100): the frame it closes over, the resolved
`javascript:` URL, and the ready-state manager captured at schedule time
(the manager of the window the task was started on — even if the frame's
window is replaced before the timer fires, `endTask` still hits this
one). -/
structure ScheduledEval where
  frameId : Nat
  jsUrl : String
  readyStateWindow : Nat
deriving Repr, DecidableEq

/-- What one `goto` call produces: the state after all synchronous
mutations, the value it returns (`response` / "no content"), the deferred
evaluation it scheduled (if any), and the error it threw to its caller
(if any — mutations made before the throw persist in `state`). -/
structure GotoResult where
  state : BrowserState
  response : Option ResponseData
  scheduled : Option ScheduledEval
  thrown : Option DOMExceptionData

/-- A `goto` ending by raising `e` with state `s`. -/
def thrownResult (s : BrowserState) (e : DOMExceptionData) : GotoResult :=
  { state := s, response := none, scheduled := none, thrown := some e }

/-- A `goto` ending normally with "no content" (`return null`). -/
def noContentResult (s : BrowserState) : GotoResult :=
  { state := s, response := none, scheduled := none, thrown := none }

/-- `url.replace('javascript:', '')` (source line 91); the argument always
starts with `javascript:` at the call site, so replacing the first
occurrence is dropping the 11-character prefix. -/
def stripJavascriptScheme (u : String) : String :=
  if strStartsWith u "javascript:" then u.drop 11 else u

/-- `BrowserFrameUtility.isDetachedMainFrame(frame)` (source lines
203-210): a detached frame variant whose page's context is the browser's
default context, whose page is the first page of that context, and which
is its page's main frame.  (With `frame.page` absent the source would
throw a TypeError reading `frame.page.context`; `goto`, its only caller
here, checks the page first.) -/
def isDetachedMainFrame (s : BrowserState) (f : Nat) : Bool :=
  (s.frames f).detached &&
    match (s.frames f).page with
    | none => false
    | some p =>
      ((s.pages p).context == s.defaultContext) &&
      ((s.contexts (s.pages p).context).pages.head? == some p) &&
      ((s.pages p).mainFrame == f)

/-- `frame.page.mainFrame === frame`. -/
def isPageMainFrame (s : BrowserState) (f : Nat) : Bool :=
  match (s.frames f).page with
  | none => false
  | some p => (s.pages p).mainFrame == f

/-- `BrowserFrameUtility.isBrowserNavigationAllowed(frame, fromURL, toURL)`
(source lines 172-195): read the policy tokens from the settings reached
through `frame.page.context.browser`; `deny` rejects unconditionally;
`sameorigin` rejects when `new URL(fromURL).origin !== new URL(toURL).origin`
(parsing both URLs, which throws on an unparsable one — modelled as the
`.error` result); `child-only` rejects the page's main frame; otherwise
allow.  Reading the settings off an absent page throws a TypeError. -/
def isBrowserNavigationAllowed (s : BrowserState) (f : Nat) (fromURL toURL : String) :
    Except DOMExceptionData Bool :=
  match (s.frames f).page with
  | none => .error nullAccessError
  | some p =>
    let nav := s.settings.browserNavigation
    if nav.contains "deny" then .ok false
    else
      match
        (if nav.contains "sameorigin" then
          match parseAbsoluteURL fromURL with
          | .error _ => .error invalidURLError
          | .ok u1 =>
            match parseAbsoluteURL toURL with
            | .error _ => .error invalidURLError
            | .ok u2 => .ok (u1.origin != u2.origin)
        else .ok false : Except DOMExceptionData Bool) with
      | .error e => .error e
      | .ok crossOrigin =>
        if crossOrigin then .ok false
        else if nav.contains "child-only" && (s.pages p).mainFrame == f then .ok false
        else .ok true

/-- The `javascript:` branch of `goto` (source lines 82-103): with
evaluation enabled and the frame's page and window present, open a
ready-state task on the frame's window and schedule the deferred
evaluation on the main frame's window; terminal, returns "no content". -/
def gotoJavascript (s : BrowserState) (f : Nat) (url : String) : GotoResult :=
  match (s.frames f).page with
  | none => thrownResult s nullAccessError
  | some p =>
    if s.settings.disableJavaScriptEvaluation then noContentResult s
    else
      match (s.frames f).window with
      | none => thrownResult s nullAccessError
      | some w =>
        let s1 := startTask s w
        match (s1.frames (s1.pages p).mainFrame).window with
        | none => thrownResult s1 nullAccessError
        | some _ =>
          { state := s1
            response := none
            scheduled := some { frameId := f, jsUrl := url, readyStateWindow := w }
            thrown := none }

/-- The rejection exit of `goto` (source lines 108-112): when the policy
tokens contain `url-set-fallback` the frame's `url` is still set to the
resolved target; "no content" either way. -/
def rejectResult (s : BrowserState) (f : Nat) (url : String) : GotoResult :=
  if s.settings.browserNavigation.contains "url-set-fallback"
  then noContentResult (setFrameURL s f url)
  else noContentResult s

/-- `frame.childFrames = []` (source line 119). -/
def clearChildren (s : BrowserState) (f : Nat) : BrowserState :=
  updFrame s f { s.frames f with childFrames := [] }

/-- Lines 120-122 of the source: mark the old window closed, destroy the
frame's async task manager, drop the settings cached for the old
window. -/
def teardownWindow (s : BrowserState) (f : Nat) (ow : Nat) : BrowserState :=
  removeSettingsFor (destroyTaskManager (markWindowClosed s ow) f) ow

/-- Allocation of a fresh blank window in the arena. -/
def allocWindow (s : BrowserState) : BrowserState :=
  { s with windows := fun j => if j = s.numWindows then blankWindow else s.windows j
           numWindows := s.numWindows + 1 }

/-- `frame.window = new windowClass({browserFrame: frame, console: ...})`
(source lines 124-127): construct a blank window and hand it to the
frame. -/
def attachNewWindow (s : BrowserState) (f : Nat) : BrowserState :=
  updFrame (allocWindow s) f { (allocWindow s).frames f with window := some s.numWindows }

/-- `if (options?.referrer) frame.window.document.referrer = options.referrer`
(source lines 129-131); an empty referrer string is falsy in JavaScript. -/
def applyReferrer (s : BrowserState) (nw : Nat) (opts : GoToOptionsData) : BrowserState :=
  match opts.referrer with
  | some r => if r = "" then s else updWindowAt s nw { s.windows nw with referrer := r }
  | none => s

/-- The one `frame.window.fetch` invocation of a navigation (source line
149). -/
def recordFetch (s : BrowserState) : BrowserState :=
  { s with fetchCount := s.fetchCount + 1 }

/-- `frame.content = responseText` (source line 160). -/
def setFrameContent (s : BrowserState) (f : Nat) (txt : String) : BrowserState :=
  updFrame s f { s.frames f with content := txt }

/-- The committed part of `goto` (source lines 115-163): recursively close
the child frames (same live-array loop as `closeFrame`), clear
`childFrames`, tear the old window down, construct a new blank window,
apply the referrer option, short-circuit empty/`about:` URLs, otherwise
set `frame.url`, open the ready-state task, invoke fetch and settle it. -/
def gotoPerform (s0 : BrowserState) (f : Nat) (url : String) (opts : GoToOptionsData)
    (fo : FetchOutcome) : GotoResult :=
  let s2 := clearChildren (closeChildrenLoop (closeFuel s0) s0 f 0) f
  match (s2.frames f).window with
  | none => thrownResult s2 nullAccessError
  | some ow =>
    let s5 := teardownWindow s2 f ow
    let nw := s5.numWindows
    let s8 := applyReferrer (attachNewWindow s5 f) nw opts
    if url == "" || strStartsWith url "about:" then noContentResult s8
    else
      let s11 := recordFetch (startTask (setFrameURL s8 f url) nw)
      match fo with
      | .fetchError e => noContentResult (dispatchErrorTo (endTask s11 nw) nw e)
      | .textError resp e =>
        { state := dispatchErrorTo (endTask s11 nw) nw e
          response := some resp
          scheduled := none
          thrown := none }
      | .success resp txt =>
        { state := endTask (setFrameContent s11 f txt) nw
          response := some resp
          scheduled := none
          thrown := none }

/-- The non-`javascript:` part of `goto` after resolution (source lines
105-163): with the page absent, both eligibility tests of line 105-107
throw a TypeError reading `frame.page...`, so the page is matched first;
then reject detached main frames, then consult the policy evaluator
(whose URL-parsing TypeError propagates), and finally commit. -/
def gotoNavigate (s : BrowserState) (f : Nat) (url : String) (opts : GoToOptionsData)
    (fo : FetchOutcome) : GotoResult :=
  match (s.frames f).page with
  | none => thrownResult s nullAccessError
  | some _ =>
    if isDetachedMainFrame s f then rejectResult s f url
    else
      match isBrowserNavigationAllowed s f (s.frames f).url url with
      | .error e => thrownResult s e
      | .ok true => gotoPerform s f url opts fo
      | .ok false => rejectResult s f url

/-- `BrowserFrameUtility.goto(windowClass, frame, url, options)` (source
lines 70-164): resolve the input (propagating resolution failures),
dispatch `javascript:` URLs to the deferred-evaluation branch, and
otherwise run the eligibility check and the committed navigation. -/
def goto (s : BrowserState) (f : Nat) (inputUrl : String) (opts : GoToOptionsData)
    (fo : FetchOutcome) : GotoResult :=
  match getRelativeURL s f inputUrl with
  | .error e => thrownResult s e
  | .ok url =>
    if strStartsWith url "javascript:" then gotoJavascript s f url
    else gotoNavigate s f url opts fo

/-- The deferred tick that runs a scheduled `javascript:` evaluation
(source lines 90-100, the `setTimeout` callback): build the code string
from the frame's *current* `url`, read the *current* error-capturing
setting, and evaluate in the frame's *current* window; with capturing
disabled a raise from `eval` propagates out of the timer callback and
`endTask` never runs; with capturing enabled the error is dispatched to
the frame's window and the task is closed.  `endTask` always targets the
ready-state manager captured at schedule time.  The second component is
the error that escaped the tick uncaught, if any. -/
def runScheduledEval (s : BrowserState) (task : ScheduledEval)
    (evalOutcome : String → Option DOMExceptionData) :
    BrowserState × Option DOMExceptionData :=
  let fd := s.frames task.frameId
  let code := "//# sourceURL=" ++ fd.url ++ "\n" ++ stripJavascriptScheme task.jsUrl
  match fd.page with
  | none => (s, some nullAccessError)
  | some _ =>
    if s.settings.disableErrorCapturing then
      match fd.window with
      | none => (s, some nullAccessError)
      | some _ =>
        match evalOutcome code with
        | some e => (s, some e)
        | none => (endTask s task.readyStateWindow, none)
    else
      match fd.window with
      | none => (s, some nullAccessError)
      | some w =>
        match evalOutcome code with
        | none => (endTask s task.readyStateWindow, none)
        | some e => (endTask (dispatchErrorTo s w e) task.readyStateWindow, none)

/-- A whole navigation as observed once everything has settled: run `goto`
and then the deferred evaluation it scheduled, if any.  The second
component is the error (if any) that escaped the deferred tick. -/
def navSettle (s : BrowserState) (f : Nat) (inputUrl : String) (opts : GoToOptionsData)
    (fo : FetchOutcome) (evalOutcome : String → Option DOMExceptionData) :
    BrowserState × Option DOMExceptionData :=
  let r := goto s f inputUrl opts fo
  match r.scheduled with
  | some t => runScheduledEval r.state t evalOutcome
  | none => (r.state, none)

/-- Window slots at or beyond the allocation counter still hold the
pristine record: true of every state built by allocation. -/
def windowsBlankFrom (s : BrowserState) : Prop :=
  ∀ w, s.numWindows ≤ w → s.windows w = blankWindow

/-! ## Concrete fixture states -/

/-- A live frame on page `0` with window `w`. -/
def liveFrame (parent : Option Nat) (children : List Nat) (w : Nat) (url : String) :
    FrameData :=
  { parentFrame := parent
    childFrames := children
    window := some w
    page := some 0
    url := url
    content := ""
    asyncTaskManagerAlive := true
    detached := false }

/-- Default browser settings: no policy tokens, nothing disabled. -/
def defaultSettings : BrowserSettings :=
  { browserNavigation := []
    disableJavaScriptEvaluation := false
    disableErrorCapturing := false }

/-- A single-page world with `n` frames given by `fs`, one blank window
per frame, and settings `st`. -/
def mkState (fs : Nat → FrameData) (n : Nat) (st : BrowserSettings) : BrowserState :=
  { frames := fs
    numFrames := n
    windows := fun _ => blankWindow
    numWindows := n
    pages := fun _ => { mainFrame := 0, context := 0 }
    contexts := fun _ => { pages := [0] }
    defaultContext := 0
    settings := st
    settingsRegistry := []
    fetchCount := 0 }

/-- A root frame `0` holding two live children `1` and `2`. -/
def twoChildrenState : BrowserState :=
  mkState
    (fun i =>
      if i = 0 then liveFrame none [1, 2] 0 "https://example.com/"
      else if i = 1 then liveFrame (some 0) [] 1 "https://example.com/a"
      else if i = 2 then liveFrame (some 0) [] 2 "https://example.com/b"
      else defaultFrameData)
    3 defaultSettings

/-- A lone live root frame at `https://example.com/`. -/
def oneFrameState : BrowserState :=
  mkState (fun i => if i = 0 then liveFrame none [] 0 "https://example.com/" else defaultFrameData)
    1 defaultSettings

/-- The lone-frame world with error capturing disabled. -/
def noCaptureState : BrowserState :=
  mkState (fun i => if i = 0 then liveFrame none [] 0 "https://example.com/" else defaultFrameData)
    1 { defaultSettings with disableErrorCapturing := true }

/-- A fetch outcome for navigations that never reach the fetch. -/
def unusedFetch : FetchOutcome :=
  .fetchError { message := "unused", name := "TypeError" }

/-- The error a deliberately failing `javascript:` evaluation raises. -/
def boomError : DOMExceptionData := { message := "boom", name := "Error" }

/-- An evaluation capability that always raises `boomError`. -/
def boomOracle : String → Option DOMExceptionData := fun _ => some boomError

/-- An evaluation capability that always succeeds. -/
def quietOracle : String → Option DOMExceptionData := fun _ => none

/-- The task `goto` schedules for `javascript:boom()` on the lone-frame
worlds above. -/
def boomTask : ScheduledEval :=
  { frameId := 0, jsUrl := "javascript:boom()", readyStateWindow := 0 }

/-- A lone live frame, with the `sameorigin` navigation policy. -/
def sameoriginState : BrowserState :=
  mkState (fun i => if i = 0 then liveFrame none [] 0 "https://a.test/x" else defaultFrameData)
    1 { defaultSettings with browserNavigation := ["sameorigin"] }

/-- A lone live frame whose window's location is `https://a.test/x`
(a location with a non-empty hostname). -/
def hostedState : BrowserState :=
  { mkState (fun i => if i = 0 then liveFrame none [] 0 "https://a.test/x" else defaultFrameData)
      1 defaultSettings with
    windows := fun i => if i = 0 then { blankWindow with locationHref := "https://a.test/x" }
               else blankWindow }

/-! ## Lemmas about `closeFrame` -/

theorem closeFrameAux_of_window_none (fuel : Nat) (s : BrowserState) (f : Nat)
    (h : (s.frames f).window = none) : closeFrameAux fuel s f = s := by
  cases fuel with
  | zero => rfl
  | succ n => simp [closeFrameAux, h]

theorem closeFinalize_window_self (s : BrowserState) (f : Nat) :
    ((closeFinalize s f).frames f).window = none := by
  unfold closeFinalize
  rcases h : (s.frames f).window with _ | w <;>
    simp [h, updFrame, destroyTaskManager, markWindowClosed, removeSettingsFor, updWindowAt]

theorem closeFrameAux_window_self (fuel : Nat) (s : BrowserState) (f : Nat)
    (hf : fuel ≠ 0) : ((closeFrameAux fuel s f).frames f).window = none := by
  cases fuel with
  | zero => exact absurd rfl hf
  | succ n =>
    rcases h : (s.frames f).window with _ | w
    · simp [closeFrameAux, h]
    · simp [closeFrameAux, h, closeFinalize_window_self]

theorem closeFuel_ne_zero (s : BrowserState) : closeFuel s ≠ 0 :=
  Nat.mul_ne_zero (Nat.succ_ne_zero _) (Nat.succ_ne_zero _)

/-- C9: `closeFrame` is idempotent — the second call is a no-op because
the first one leaves `frame.window` absent. -/
theorem closeFrame_idempotent (s : BrowserState) (f : Nat) :
    closeFrame (closeFrame s f) f = closeFrame s f :=
  closeFrameAux_of_window_none _ _ _
    (closeFrameAux_window_self (closeFuel s) s f (closeFuel_ne_zero s))

/-- C1: on a frame with two live children, `closeFrame` finalizes the
frame itself and the first child, but the second child is skipped — its
window and page survive and it even remains in the (stale) `childFrames`
list — because each recursive `closeFrame` splices the child out of the
very array the `for...of` loop is iterating, shifting the next sibling
under the iterator.  This contradicts the specified property that every
child is closed. -/
theorem closeFrame_skips_second_child :
    ((closeFrame twoChildrenState 0).frames 0).window = none ∧
    ((closeFrame twoChildrenState 0).frames 1).window = none ∧
    ((closeFrame twoChildrenState 0).frames 1).page = none ∧
    ((closeFrame twoChildrenState 0).frames 2).window = some 2 ∧
    ((closeFrame twoChildrenState 0).frames 2).page = some 0 ∧
    ((closeFrame twoChildrenState 0).frames 0).childFrames = [2] := by
  decide

/-! ## The navigation policy evaluator -/

/-- Helper: the policy evaluator's result as one boolean expression, for
a frame with a page and two parsable URLs. -/
theorem navAllowed_parse_eq (s : BrowserState) (f : Nat)
    (fromURL toURL : String) (p : Nat) (u1 u2 : ParsedURL)
    (hpage : (s.frames f).page = some p)
    (h1 : parseAbsoluteURL fromURL = .ok u1)
    (h2 : parseAbsoluteURL toURL = .ok u2) :
    isBrowserNavigationAllowed s f fromURL toURL =
      .ok (!(s.settings.browserNavigation.contains "deny" ||
             (s.settings.browserNavigation.contains "sameorigin" && u1.origin != u2.origin) ||
             (s.settings.browserNavigation.contains "child-only" &&
               (s.pages p).mainFrame == f))) := by
  simp only [isBrowserNavigationAllowed, hpage, h1, h2]
  cases hd : s.settings.browserNavigation.contains "deny" <;>
  cases hs : s.settings.browserNavigation.contains "sameorigin" <;>
  cases ho : u1.origin != u2.origin <;>
  cases hc : s.settings.browserNavigation.contains "child-only" <;>
  cases hm : (s.pages p).mainFrame == f <;>
    simp [hd, hs, ho, hc, hm]

/-- Helper: without the `sameorigin` token the policy evaluator never
parses the URLs and reduces to the `deny` / `child-only` tests. -/
theorem navAllowed_no_sameorigin_eq (s : BrowserState) (f : Nat)
    (fromURL toURL : String) (p : Nat)
    (hpage : (s.frames f).page = some p)
    (hs : s.settings.browserNavigation.contains "sameorigin" = false) :
    isBrowserNavigationAllowed s f fromURL toURL =
      .ok (!(s.settings.browserNavigation.contains "deny" ||
             (s.settings.browserNavigation.contains "child-only" &&
               (s.pages p).mainFrame == f))) := by
  simp only [isBrowserNavigationAllowed, hpage, hs]
  cases hd : s.settings.browserNavigation.contains "deny" <;>
  cases hc : s.settings.browserNavigation.contains "child-only" <;>
  cases hm : (s.pages p).mainFrame == f <;>
    simp [hd, hc, hm]

/-- C5: for a frame with a page and two parsable URLs,
`isBrowserNavigationAllowed` returns `false` exactly when the policy
tokens contain `deny`, or contain `sameorigin` while the two origins
differ, or contain `child-only` while the frame is its page's main frame —
and returns `true` in every other case. -/
theorem isBrowserNavigationAllowed_policy (s : BrowserState) (f : Nat)
    (fromURL toURL : String) (p : Nat) (u1 u2 : ParsedURL)
    (hpage : (s.frames f).page = some p)
    (h1 : parseAbsoluteURL fromURL = .ok u1)
    (h2 : parseAbsoluteURL toURL = .ok u2) :
    isBrowserNavigationAllowed s f fromURL toURL =
      .ok (!(s.settings.browserNavigation.contains "deny" ||
             (s.settings.browserNavigation.contains "sameorigin" && u1.origin != u2.origin) ||
             (s.settings.browserNavigation.contains "child-only" &&
               (s.pages p).mainFrame == f))) :=
  navAllowed_parse_eq s f fromURL toURL p u1 u2 hpage h1 h2

theorem isBrowserNavigationAllowed_policy_witness :
    (sameoriginState.frames 0).page = some 0 ∧
    parseAbsoluteURL "https://a.test/x" =
      .ok { href := "https://a.test/x", origin := "https://a.test", hostname := "a.test" } ∧
    parseAbsoluteURL "https://b.test/y" =
      .ok { href := "https://b.test/y", origin := "https://b.test", hostname := "b.test" } ∧
    isBrowserNavigationAllowed sameoriginState 0 "https://a.test/x" "https://b.test/y" =
      .ok false :=
  ⟨rfl, rfl, rfl,
    isBrowserNavigationAllowed_policy sameoriginState 0 "https://a.test/x" "https://b.test/y"
      0 _ _ rfl rfl rfl⟩

/-- C6 counterexample: with the `sameorigin` token present and a `fromURL`
that is not a parsable absolute URL, `isBrowserNavigationAllowed` does not
return a boolean — `new URL(fromURL)` throws a `TypeError` — refuting the
claim that it never raises. -/
theorem isBrowserNavigationAllowed_raises_on_unparsable :
    isBrowserNavigationAllowed sameoriginState 0 "not a url" "https://b.test/y" =
      .error invalidURLError := rfl

/-- C6 amended: `isBrowserNavigationAllowed` is a pure function of the
frame's effective settings and the two URLs (its embedding takes the state
and returns a value, mutating nothing), and it returns a boolean whenever
the policy set lacks `sameorigin` or both URL strings parse as absolute
URLs; outside that domain URL parsing throws. -/
theorem isBrowserNavigationAllowed_total (s : BrowserState) (f : Nat)
    (fromURL toURL : String) (p : Nat)
    (hpage : (s.frames f).page = some p)
    (hdom : s.settings.browserNavigation.contains "sameorigin" = false ∨
            ((∃ u, parseAbsoluteURL fromURL = .ok u) ∧ (∃ u, parseAbsoluteURL toURL = .ok u))) :
    ∃ b, isBrowserNavigationAllowed s f fromURL toURL = .ok b := by
  rcases hdom with h | ⟨⟨u1, h1⟩, ⟨u2, h2⟩⟩
  · exact ⟨_, navAllowed_no_sameorigin_eq s f fromURL toURL p hpage h⟩
  · exact ⟨_, navAllowed_parse_eq s f fromURL toURL p u1 u2 hpage h1 h2⟩

theorem isBrowserNavigationAllowed_total_witness :
    (sameoriginState.frames 0).page = some 0 ∧
    (∃ b, isBrowserNavigationAllowed sameoriginState 0 "https://a.test/x" "https://a.test/z" =
       .ok b) :=
  ⟨rfl, isBrowserNavigationAllowed_total sameoriginState 0 "https://a.test/x" "https://a.test/z"
    0 rfl (Or.inr ⟨⟨_, rfl⟩, ⟨_, rfl⟩⟩)⟩

/-! ## URL resolution failure messages -/

/-- C8: when resolving a (non-pseudo, non-empty) input against the frame's
current location fails, `getRelativeURL` fails with a URI-mismatch
DOMException whose message has the "relative to URL" clause exactly when
the current location's hostname is empty. -/
theorem getRelativeURL_failure (s : BrowserState) (f : Nat) (inputUrl : String) (w : Nat)
    (hne : inputUrl ≠ "")
    (hab : strStartsWith inputUrl "about:" = false)
    (hjs : strStartsWith inputUrl "javascript:" = false)
    (hwin : (s.frames f).window = some w)
    (hfail : resolveURLModel inputUrl (s.windows w).locationHref = none) :
    getRelativeURL s f inputUrl =
      .error { message :=
                 if locationHostname (s.windows w) = "" then
                   "Failed to construct URL from string \"" ++ inputUrl ++
                     "\" relative to URL \"" ++ (s.windows w).locationHref ++ "\"."
                 else "Failed to construct URL from string \"" ++ inputUrl ++ "\"."
               name := uriMismatchErrorName } := by
  simp only [getRelativeURL, if_neg hne, hab, hjs, Bool.or_self, Bool.false_eq_true,
    if_false, hwin, hfail]
  split <;> rfl

theorem getRelativeURL_failure_witness :
    ("https://" ≠ "" ∧ strStartsWith "https://" "about:" = false ∧
      strStartsWith "https://" "javascript:" = false ∧
      (hostedState.frames 0).window = some 0 ∧
      resolveURLModel "https://" (hostedState.windows 0).locationHref = none) ∧
    getRelativeURL hostedState 0 "https://" =
      .error { message := "Failed to construct URL from string \"https://\"."
               name := uriMismatchErrorName } :=
  ⟨⟨by decide, rfl, rfl, rfl, rfl⟩,
    getRelativeURL_failure hostedState 0 "https://" 0 (by decide) rfl rfl rfl rfl⟩

/-! ## What closing frames preserves

`closeFrame` (and the child-closing loop `goto` shares with it) never
touches a frame's `url` or `content`, never touches the ready-state
counters of any window, allocates no window, and performs no fetch. -/

def preservesNav (s t : BrowserState) : Prop :=
  t.numWindows = s.numWindows ∧
  t.fetchCount = s.fetchCount ∧
  (∀ w, (t.windows w).tasksStarted = (s.windows w).tasksStarted ∧
        (t.windows w).tasksEnded = (s.windows w).tasksEnded) ∧
  (∀ i, (t.frames i).url = (s.frames i).url ∧ (t.frames i).content = (s.frames i).content)

theorem preservesNav_refl (s : BrowserState) : preservesNav s s :=
  ⟨rfl, rfl, fun _ => ⟨rfl, rfl⟩, fun _ => ⟨rfl, rfl⟩⟩

theorem preservesNav_trans {s t u : BrowserState}
    (h1 : preservesNav s t) (h2 : preservesNav t u) : preservesNav s u := by
  obtain ⟨a1, b1, c1, d1⟩ := h1
  obtain ⟨a2, b2, c2, d2⟩ := h2
  exact ⟨a2.trans a1, b2.trans b1,
    fun w => ⟨((c2 w).1).trans (c1 w).1, ((c2 w).2).trans (c1 w).2⟩,
    fun i => ⟨((d2 i).1).trans (d1 i).1, ((d2 i).2).trans (d1 i).2⟩⟩

theorem preservesNav_updFrame (s : BrowserState) (f : Nat) (fd : FrameData)
    (hu : fd.url = (s.frames f).url) (hc : fd.content = (s.frames f).content) :
    preservesNav s (updFrame s f fd) := by
  refine ⟨rfl, rfl, fun w => ⟨rfl, rfl⟩, fun i => ?_⟩
  simp only [updFrame]
  by_cases hif : i = f
  · subst hif; simp [hu, hc]
  · simp [hif]

theorem preservesNav_updWindowAt (s : BrowserState) (w : Nat) (wd : WindowData)
    (h1 : wd.tasksStarted = (s.windows w).tasksStarted)
    (h2 : wd.tasksEnded = (s.windows w).tasksEnded) :
    preservesNav s (updWindowAt s w wd) := by
  refine ⟨rfl, rfl, fun v => ?_, fun i => ⟨rfl, rfl⟩⟩
  simp only [updWindowAt]
  by_cases hvw : v = w
  · subst hvw; simp [h1, h2]
  · simp [hvw]

theorem preservesNav_removeSettingsFor (s : BrowserState) (w : Nat) :
    preservesNav s (removeSettingsFor s w) :=
  ⟨rfl, rfl, fun _ => ⟨rfl, rfl⟩, fun _ => ⟨rfl, rfl⟩⟩

theorem preservesNav_detachFromParent (s : BrowserState) (f : Nat) :
    preservesNav s (detachFromParent s f) := by
  rcases hp : (s.frames f).parentFrame with _ | p
  · simp only [detachFromParent, hp]; exact preservesNav_refl s
  · rcases hi : ((s.frames p).childFrames).findIdx? (fun c => c == f) with _ | i
    · simp only [detachFromParent, hp, hi]; exact preservesNav_refl s
    · simp only [detachFromParent, hp, hi]
      exact preservesNav_updFrame _ _ _ rfl rfl

theorem preservesNav_closeFinalize (s : BrowserState) (f : Nat) :
    preservesNav s (closeFinalize s f) := by
  rcases hw : (s.frames f).window with _ | w
  · simp only [closeFinalize, hw]
    refine @preservesNav_trans _ (destroyTaskManager s f) _ ?_ ?_
    · exact preservesNav_updFrame _ _ _ rfl rfl
    · exact preservesNav_updFrame _ _ _ rfl rfl
  · simp only [closeFinalize, hw]
    refine @preservesNav_trans _ (markWindowClosed s w) _ ?_
      (@preservesNav_trans _ (destroyTaskManager (markWindowClosed s w) f) _ ?_
        (@preservesNav_trans _
          (removeSettingsFor (destroyTaskManager (markWindowClosed s w) f) w) _ ?_ ?_))
    · exact preservesNav_updWindowAt _ _ _ rfl rfl
    · exact preservesNav_updFrame _ _ _ rfl rfl
    · exact preservesNav_removeSettingsFor _ _
    · exact preservesNav_updFrame _ _ _ rfl rfl

theorem closeAux_preservesNav (fuel : Nat) :
    (∀ s f, preservesNav s (closeFrameAux fuel s f)) ∧
    (∀ s f i, preservesNav s (closeChildrenLoop fuel s f i)) := by
  induction fuel with
  | zero => exact ⟨fun s _ => preservesNav_refl s, fun s _ _ => preservesNav_refl s⟩
  | succ n ih =>
    constructor
    · intro s f
      rcases hw : (s.frames f).window with _ | w
      · simp only [closeFrameAux, hw]; exact preservesNav_refl s
      · simp only [closeFrameAux, hw]
        exact preservesNav_trans (preservesNav_detachFromParent s f)
          (preservesNav_trans (ih.2 _ f 0) (preservesNav_closeFinalize _ f))
    · intro s f i
      by_cases hlt : i < ((s.frames f).childFrames).length
      · simp only [closeChildrenLoop, if_pos hlt]
        exact preservesNav_trans (ih.1 s _) (ih.2 _ f (i + 1))
      · simp only [closeChildrenLoop, if_neg hlt]; exact preservesNav_refl s

theorem closeChildrenLoop_preservesNav (fuel : Nat) (s : BrowserState) (f i : Nat) :
    preservesNav s (closeChildrenLoop fuel s f i) :=
  (closeAux_preservesNav fuel).2 s f i

/-! ## Rejected navigations -/

/-- C7: when `goto` rejects the navigation at the eligibility check — the
target is a detached main frame, or the policy evaluator returns `false` —
it returns "no content", throws nothing, schedules nothing, and the state
is completely unchanged except that, when the policy tokens contain
`url-set-fallback`, `frame.url` is set to the resolved target. -/
theorem goto_rejected (s : BrowserState) (f : Nat) (inputUrl url : String)
    (opts : GoToOptionsData) (fo : FetchOutcome) (p : Nat)
    (hres : getRelativeURL s f inputUrl = .ok url)
    (hjs : strStartsWith url "javascript:" = false)
    (hpage : (s.frames f).page = some p)
    (hrej : isDetachedMainFrame s f = true ∨
            isBrowserNavigationAllowed s f (s.frames f).url url = .ok false) :
    goto s f inputUrl opts fo =
      { state := if s.settings.browserNavigation.contains "url-set-fallback"
                 then setFrameURL s f url else s
        response := none
        scheduled := none
        thrown := none } := by
  simp only [goto, hres, hjs, Bool.false_eq_true, if_false, gotoNavigate, hpage]
  rcases hrej with hdet | hpolf
  · simp only [hdet, if_true]
    unfold rejectResult noContentResult
    split <;> rfl
  · cases hdet : isDetachedMainFrame s f
    · simp only [Bool.false_eq_true, if_false, hpolf]
      unfold rejectResult noContentResult
      split <;> rfl
    · simp only [if_true]
      unfold rejectResult noContentResult
      split <;> rfl

/-- A lone live frame under the `deny` + `url-set-fallback` policy. -/
def denyFallbackState : BrowserState :=
  mkState (fun i => if i = 0 then liveFrame none [] 0 "https://a.test/x" else defaultFrameData)
    1 { defaultSettings with browserNavigation := ["deny", "url-set-fallback"] }

theorem goto_rejected_witness :
    (getRelativeURL denyFallbackState 0 "https://b.test/y" = .ok "https://b.test/y" ∧
      strStartsWith "https://b.test/y" "javascript:" = false ∧
      (denyFallbackState.frames 0).page = some 0 ∧
      isBrowserNavigationAllowed denyFallbackState 0 (denyFallbackState.frames 0).url
        "https://b.test/y" = .ok false) ∧
    goto denyFallbackState 0 "https://b.test/y" noOpts unusedFetch =
      { state := setFrameURL denyFallbackState 0 "https://b.test/y"
        response := none
        scheduled := none
        thrown := none } :=
  ⟨⟨rfl, by decide, rfl, rfl⟩,
    goto_rejected denyFallbackState 0 "https://b.test/y" "https://b.test/y" noOpts unusedFetch 0
      rfl (by decide) rfl (Or.inr rfl)⟩

/-! ## Projections of the committed-navigation steps -/

theorem updFrame_frames_self (s : BrowserState) (i : Nat) (fd : FrameData) :
    (updFrame s i fd).frames i = fd := by
  simp [updFrame]

theorem clearChildren_frames_self (s : BrowserState) (f : Nat) :
    (clearChildren s f).frames f = { s.frames f with childFrames := [] } :=
  updFrame_frames_self s f _

theorem teardownWindow_frames_self (s : BrowserState) (f ow : Nat) :
    (teardownWindow s f ow).frames f = { s.frames f with asyncTaskManagerAlive := false } := by
  simp [teardownWindow, removeSettingsFor, destroyTaskManager, markWindowClosed,
    updWindowAt, updFrame]

theorem attachNewWindow_frames_self (s : BrowserState) (f : Nat) :
    (attachNewWindow s f).frames f = { s.frames f with window := some s.numWindows } := by
  simp [attachNewWindow, allocWindow, updFrame]

theorem applyReferrer_frames (s : BrowserState) (nw : Nat) (opts : GoToOptionsData) :
    (applyReferrer s nw opts).frames = s.frames := by
  cases hr : opts.referrer with
  | none => simp [applyReferrer, hr]
  | some r => by_cases h : r = "" <;> simp [applyReferrer, hr, h, updWindowAt]

theorem applyReferrer_numWindows (s : BrowserState) (nw : Nat) (opts : GoToOptionsData) :
    (applyReferrer s nw opts).numWindows = s.numWindows := by
  cases hr : opts.referrer with
  | none => simp [applyReferrer, hr]
  | some r => by_cases h : r = "" <;> simp [applyReferrer, hr, h, updWindowAt]

theorem applyReferrer_fetchCount (s : BrowserState) (nw : Nat) (opts : GoToOptionsData) :
    (applyReferrer s nw opts).fetchCount = s.fetchCount := by
  cases hr : opts.referrer with
  | none => simp [applyReferrer, hr]
  | some r => by_cases h : r = "" <;> simp [applyReferrer, hr, h, updWindowAt]

theorem applyReferrer_windows_counts (s : BrowserState) (nw : Nat) (opts : GoToOptionsData)
    (v : Nat) :
    ((applyReferrer s nw opts).windows v).tasksStarted = (s.windows v).tasksStarted ∧
    ((applyReferrer s nw opts).windows v).tasksEnded = (s.windows v).tasksEnded ∧
    ((applyReferrer s nw opts).windows v).dispatchedErrors = (s.windows v).dispatchedErrors := by
  cases hr : opts.referrer with
  | none => simp [applyReferrer, hr]
  | some r =>
    by_cases h : r = ""
    · simp [applyReferrer, hr, h]
    · by_cases hv : v = nw <;> simp [applyReferrer, hr, h, updWindowAt, hv]

/-! ## The empty / `about:` short-circuit of `goto` -/

/-- C2 counterexample: on a frame currently at `https://example.com/`,
`goto(frame, "about:blank")` leaves `frame.url` untouched — the
short-circuit returns before the `frame.url = url` assignment of the
fetch path — so `frame.url` is not `"about:blank"` afterwards, contrary
to the claim. -/
theorem goto_about_blank_leaves_url :
    ((goto oneFrameState 0 "about:blank" noOpts unusedFetch).state.frames 0).url ≠
      "about:blank" ∧
    ((goto oneFrameState 0 "about:blank" noOpts unusedFetch).state.frames 0).url =
      (oneFrameState.frames 0).url := by
  decide

/-- C2 amended: when the resolved URL is empty or `about:`-prefixed and
the navigation is otherwise eligible, `goto` replaces the frame's window
with a newly constructed one, returns "no content" without throwing or
scheduling anything, never invokes the fetch capability, and leaves
`frame.url` unchanged (it does not set it to the resolved URL). -/
theorem goto_about_short_circuit (s : BrowserState) (f : Nat) (inputUrl url : String)
    (opts : GoToOptionsData) (fo : FetchOutcome) (w p : Nat)
    (hres : getRelativeURL s f inputUrl = .ok url)
    (hjs : strStartsWith url "javascript:" = false)
    (hab : url = "" ∨ strStartsWith url "about:" = true)
    (hpage : (s.frames f).page = some p)
    (hdet : isDetachedMainFrame s f = false)
    (hpol : isBrowserNavigationAllowed s f (s.frames f).url url = .ok true)
    (hwin : (s.frames f).window = some w)
    (hwlt : w < s.numWindows)
    (hloop : ((closeChildrenLoop (closeFuel s) s f 0).frames f).window = (s.frames f).window) :
    (goto s f inputUrl opts fo).thrown = none ∧
    (goto s f inputUrl opts fo).response = none ∧
    (goto s f inputUrl opts fo).scheduled = none ∧
    (goto s f inputUrl opts fo).state.fetchCount = s.fetchCount ∧
    ((goto s f inputUrl opts fo).state.frames f).url = (s.frames f).url ∧
    ((goto s f inputUrl opts fo).state.frames f).window = some s.numWindows ∧
    ((goto s f inputUrl opts fo).state.frames f).window ≠ some w := by
  have hpres := closeChildrenLoop_preservesNav (closeFuel s) s f 0
  have hgoto : goto s f inputUrl opts fo = gotoPerform s f url opts fo := by
    simp only [goto, hres, hjs, Bool.false_eq_true, if_false, gotoNavigate, hpage, hdet, hpol]
  have hw2 : ((clearChildren (closeChildrenLoop (closeFuel s) s f 0) f).frames f).window =
      some w := by
    rw [clearChildren_frames_self]
    exact hloop.trans hwin
  have hcond : (url == "" || strStartsWith url "about:") = true := by
    rcases hab with h | h
    · subst h; rfl
    · rw [h, Bool.or_true]
  have hperf : gotoPerform s f url opts fo =
      noContentResult (applyReferrer
        (attachNewWindow
          (teardownWindow (clearChildren (closeChildrenLoop (closeFuel s) s f 0) f) f w) f)
        (teardownWindow (clearChildren (closeChildrenLoop (closeFuel s) s f 0) f) f w).numWindows
        opts) := by
    simp only [gotoPerform, hw2, hcond, if_true]
  have hnum : (teardownWindow (clearChildren (closeChildrenLoop (closeFuel s) s f 0) f) f
      w).numWindows = s.numWindows :=
    hpres.1
  have hfr : (applyReferrer
      (attachNewWindow
        (teardownWindow (clearChildren (closeChildrenLoop (closeFuel s) s f 0) f) f w) f)
      (teardownWindow (clearChildren (closeChildrenLoop (closeFuel s) s f 0) f) f
        w).numWindows opts).frames f =
      { (closeChildrenLoop (closeFuel s) s f 0).frames f with
        childFrames := []
        asyncTaskManagerAlive := false
        window := some (teardownWindow
          (clearChildren (closeChildrenLoop (closeFuel s) s f 0) f) f w).numWindows } := by
    rw [applyReferrer_frames, attachNewWindow_frames_self, teardownWindow_frames_self,
      clearChildren_frames_self]
  rw [hgoto, hperf]
  refine ⟨rfl, rfl, rfl, ?_, ?_, ?_, ?_⟩
  · show (applyReferrer _ _ _).fetchCount = s.fetchCount
    rw [applyReferrer_fetchCount]
    exact hpres.2.1
  · show ((applyReferrer _ _ _).frames f).url = (s.frames f).url
    rw [hfr]
    exact (hpres.2.2.2 f).1
  · show ((applyReferrer _ _ _).frames f).window = some s.numWindows
    rw [hfr, hnum]
  · show ((applyReferrer _ _ _).frames f).window ≠ some w
    rw [hfr, hnum]
    intro hcontra
    exact absurd (Option.some.inj hcontra) (by omega)

theorem goto_about_short_circuit_witness :
    (getRelativeURL oneFrameState 0 "about:blank" = .ok "about:blank" ∧
      strStartsWith "about:blank" "javascript:" = false ∧
      strStartsWith "about:blank" "about:" = true ∧
      (oneFrameState.frames 0).page = some 0 ∧
      isDetachedMainFrame oneFrameState 0 = false ∧
      isBrowserNavigationAllowed oneFrameState 0 (oneFrameState.frames 0).url "about:blank" =
        .ok true ∧
      (oneFrameState.frames 0).window = some 0 ∧
      0 < oneFrameState.numWindows ∧
      ((closeChildrenLoop (closeFuel oneFrameState) oneFrameState 0 0).frames 0).window =
        (oneFrameState.frames 0).window) ∧
    ((goto oneFrameState 0 "about:blank" noOpts unusedFetch).thrown = none ∧
      (goto oneFrameState 0 "about:blank" noOpts unusedFetch).response = none ∧
      (goto oneFrameState 0 "about:blank" noOpts unusedFetch).scheduled = none ∧
      (goto oneFrameState 0 "about:blank" noOpts unusedFetch).state.fetchCount =
        oneFrameState.fetchCount ∧
      ((goto oneFrameState 0 "about:blank" noOpts unusedFetch).state.frames 0).url =
        (oneFrameState.frames 0).url ∧
      ((goto oneFrameState 0 "about:blank" noOpts unusedFetch).state.frames 0).window =
        some oneFrameState.numWindows ∧
      ((goto oneFrameState 0 "about:blank" noOpts unusedFetch).state.frames 0).window ≠
        some 0) :=
  ⟨⟨rfl, by decide, by decide, rfl, rfl, rfl, rfl, by decide, rfl⟩,
    goto_about_short_circuit oneFrameState 0 "about:blank" "about:blank" noOpts unusedFetch
      0 0 rfl (by decide) (Or.inr (by decide)) rfl rfl rfl rfl (by decide) rfl⟩

/-! ## Fetch failures -/

/-- The error raised by a deliberately failing fetch. -/
def netError : DOMExceptionData := { message := "net down", name := "TypeError" }

/-- The error raised by a deliberately failing `response.text()` read. -/
def readError : DOMExceptionData := { message := "read failed", name := "TypeError" }

/-- A concrete response object whose body read will fail. -/
def resp500 : ResponseData := { statusCode := 500 }

theorem attachNewWindow_windows_new (s : BrowserState) (f : Nat) :
    (attachNewWindow s f).windows s.numWindows = blankWindow := by
  simp [attachNewWindow, allocWindow, updFrame]

theorem startTask_windows_self (s : BrowserState) (w : Nat) :
    (startTask s w).windows w =
      { s.windows w with tasksStarted := (s.windows w).tasksStarted + 1 } := by
  simp [startTask, updWindowAt]

theorem endTask_windows_self (s : BrowserState) (w : Nat) :
    (endTask s w).windows w =
      { s.windows w with tasksEnded := (s.windows w).tasksEnded + 1 } := by
  simp [endTask, updWindowAt]

theorem dispatchErrorTo_windows_self (s : BrowserState) (w : Nat) (e : DOMExceptionData) :
    (dispatchErrorTo s w e).windows w =
      { s.windows w with
        dispatchedErrors := (s.windows w).dispatchedErrors ++ [e.message] } := by
  simp [dispatchErrorTo, updWindowAt]

/-- The window record of the navigation's window after the failed-fetch
tail of `gotoPerform`: one task started, one ended, the error dispatched
once. -/
theorem fetchFail_windows (X : BrowserState) (f nw : Nat) (url : String)
    (e : DOMExceptionData) :
    ((dispatchErrorTo (endTask (recordFetch (startTask (setFrameURL X f url) nw)) nw) nw
        e).windows nw).tasksStarted = (X.windows nw).tasksStarted + 1 ∧
    ((dispatchErrorTo (endTask (recordFetch (startTask (setFrameURL X f url) nw)) nw) nw
        e).windows nw).tasksEnded = (X.windows nw).tasksEnded + 1 ∧
    ((dispatchErrorTo (endTask (recordFetch (startTask (setFrameURL X f url) nw)) nw) nw
        e).windows nw).dispatchedErrors = (X.windows nw).dispatchedErrors ++ [e.message] := by
  simp [dispatchErrorTo, endTask, recordFetch, startTask, setFrameURL, updWindowAt, updFrame]

/-- C4: when the fetch (or the body read) fails inside a committed
navigation, `goto` settles without throwing, the ready-state task opened
for the navigation is closed again (the new window ends with one started
and one ended task), the error is dispatched exactly once to the new
window's error channel, and `goto` returns the last-known response object
if one exists — `none` when the fetch itself rejected, the response when
only the body read failed. -/
theorem goto_fetch_failure (s : BrowserState) (f : Nat) (inputUrl url : String)
    (opts : GoToOptionsData) (fo : FetchOutcome) (w p : Nat) (e : DOMExceptionData)
    (hres : getRelativeURL s f inputUrl = .ok url)
    (hjs : strStartsWith url "javascript:" = false)
    (hne : (url == "" || strStartsWith url "about:") = false)
    (hpage : (s.frames f).page = some p)
    (hdet : isDetachedMainFrame s f = false)
    (hpol : isBrowserNavigationAllowed s f (s.frames f).url url = .ok true)
    (hwin : (s.frames f).window = some w)
    (hloop : ((closeChildrenLoop (closeFuel s) s f 0).frames f).window = (s.frames f).window)
    (hfail : fo = .fetchError e ∨ ∃ resp, fo = .textError resp e) :
    (goto s f inputUrl opts fo).thrown = none ∧
    (goto s f inputUrl opts fo).response = lastResponse fo ∧
    ((goto s f inputUrl opts fo).state.windows
        ((teardownWindow (clearChildren (closeChildrenLoop (closeFuel s) s f 0) f) f
          w).numWindows)).tasksStarted = 1 ∧
    ((goto s f inputUrl opts fo).state.windows
        ((teardownWindow (clearChildren (closeChildrenLoop (closeFuel s) s f 0) f) f
          w).numWindows)).tasksEnded = 1 ∧
    ((goto s f inputUrl opts fo).state.windows
        ((teardownWindow (clearChildren (closeChildrenLoop (closeFuel s) s f 0) f) f
          w).numWindows)).dispatchedErrors = [e.message] := by
  have hgoto : goto s f inputUrl opts fo = gotoPerform s f url opts fo := by
    simp only [goto, hres, hjs, Bool.false_eq_true, if_false, gotoNavigate, hpage, hdet, hpol]
  have hw2 : ((clearChildren (closeChildrenLoop (closeFuel s) s f 0) f).frames f).window =
      some w := by
    rw [clearChildren_frames_self]
    exact hloop.trans hwin
  have hbase : ∀ opts', ((applyReferrer
      (attachNewWindow (teardownWindow (clearChildren
        (closeChildrenLoop (closeFuel s) s f 0) f) f w) f)
      ((teardownWindow (clearChildren (closeChildrenLoop (closeFuel s) s f 0) f) f
        w).numWindows) opts').windows
      ((teardownWindow (clearChildren (closeChildrenLoop (closeFuel s) s f 0) f) f
        w).numWindows)).tasksStarted = 0 ∧
      ((applyReferrer
        (attachNewWindow (teardownWindow (clearChildren
          (closeChildrenLoop (closeFuel s) s f 0) f) f w) f)
        ((teardownWindow (clearChildren (closeChildrenLoop (closeFuel s) s f 0) f) f
          w).numWindows) opts').windows
        ((teardownWindow (clearChildren (closeChildrenLoop (closeFuel s) s f 0) f) f
          w).numWindows)).tasksEnded = 0 ∧
      ((applyReferrer
        (attachNewWindow (teardownWindow (clearChildren
          (closeChildrenLoop (closeFuel s) s f 0) f) f w) f)
        ((teardownWindow (clearChildren (closeChildrenLoop (closeFuel s) s f 0) f) f
          w).numWindows) opts').windows
        ((teardownWindow (clearChildren (closeChildrenLoop (closeFuel s) s f 0) f) f
          w).numWindows)).dispatchedErrors = [] := by
    intro opts'
    have hc := applyReferrer_windows_counts
      (attachNewWindow (teardownWindow (clearChildren
        (closeChildrenLoop (closeFuel s) s f 0) f) f w) f)
      ((teardownWindow (clearChildren (closeChildrenLoop (closeFuel s) s f 0) f) f
        w).numWindows) opts'
      ((teardownWindow (clearChildren (closeChildrenLoop (closeFuel s) s f 0) f) f
        w).numWindows)
    rw [hc.1, hc.2.1, hc.2.2, attachNewWindow_windows_new]
    exact ⟨rfl, rfl, rfl⟩
  rcases hfail with hfo | ⟨resp, hfo⟩ <;> subst hfo <;> rw [hgoto] <;>
    simp only [gotoPerform, hw2, hne, Bool.false_eq_true, if_false, noContentResult]
  · refine ⟨by trivial, by trivial, ?_, ?_, ?_⟩
    · rw [(fetchFail_windows _ f _ url e).1, (hbase opts).1]
    · rw [(fetchFail_windows _ f _ url e).2.1, (hbase opts).2.1]
    · rw [(fetchFail_windows _ f _ url e).2.2, (hbase opts).2.2, List.nil_append]
  · refine ⟨by trivial, by trivial, ?_, ?_, ?_⟩
    · rw [(fetchFail_windows _ f _ url e).1, (hbase opts).1]
    · rw [(fetchFail_windows _ f _ url e).2.1, (hbase opts).2.1]
    · rw [(fetchFail_windows _ f _ url e).2.2, (hbase opts).2.2, List.nil_append]

theorem goto_fetch_failure_witness :
    (getRelativeURL oneFrameState 0 "https://a.test/next" = .ok "https://a.test/next" ∧
      (oneFrameState.frames 0).window = some 0 ∧
      isBrowserNavigationAllowed oneFrameState 0 (oneFrameState.frames 0).url
        "https://a.test/next" = .ok true) ∧
    ((goto oneFrameState 0 "https://a.test/next" noOpts (.fetchError netError)).thrown =
        none ∧
      (goto oneFrameState 0 "https://a.test/next" noOpts (.fetchError netError)).response =
        lastResponse (.fetchError netError) ∧
      ((goto oneFrameState 0 "https://a.test/next" noOpts
          (.fetchError netError)).state.windows 1).tasksStarted = 1 ∧
      ((goto oneFrameState 0 "https://a.test/next" noOpts
          (.fetchError netError)).state.windows 1).tasksEnded = 1 ∧
      ((goto oneFrameState 0 "https://a.test/next" noOpts
          (.fetchError netError)).state.windows 1).dispatchedErrors = ["net down"]) :=
  ⟨⟨rfl, rfl, rfl⟩,
    goto_fetch_failure oneFrameState 0 "https://a.test/next" "https://a.test/next" noOpts
      (.fetchError netError) 0 0 netError rfl (by decide) (by decide) rfl rfl rfl rfl rfl
      (Or.inl rfl)⟩

/-- The frame record after the failed-fetch tail of `gotoPerform`: only
`url` was set; `content` was never written. -/
theorem fetchFail_frames (X : BrowserState) (f nw : Nat) (url : String)
    (e : DOMExceptionData) :
    ((dispatchErrorTo (endTask (recordFetch (startTask (setFrameURL X f url) nw)) nw) nw
        e).frames f) = { X.frames f with url := url } := by
  simp [dispatchErrorTo, endTask, recordFetch, startTask, setFrameURL, updWindowAt, updFrame]

/-- C10: after a committed navigation whose fetch (or body read) fails,
`frame.url` still names the target that was set before the fetch began —
the URL update is not rolled back — while `frame.content` is unchanged
from before the navigation: the URL names a document whose content was
never installed. -/
theorem goto_fetch_failure_url_kept (s : BrowserState) (f : Nat) (inputUrl url : String)
    (opts : GoToOptionsData) (fo : FetchOutcome) (w p : Nat) (e : DOMExceptionData)
    (hres : getRelativeURL s f inputUrl = .ok url)
    (hjs : strStartsWith url "javascript:" = false)
    (hne : (url == "" || strStartsWith url "about:") = false)
    (hpage : (s.frames f).page = some p)
    (hdet : isDetachedMainFrame s f = false)
    (hpol : isBrowserNavigationAllowed s f (s.frames f).url url = .ok true)
    (hwin : (s.frames f).window = some w)
    (hloop : ((closeChildrenLoop (closeFuel s) s f 0).frames f).window = (s.frames f).window)
    (hfail : fo = .fetchError e ∨ ∃ resp, fo = .textError resp e) :
    ((goto s f inputUrl opts fo).state.frames f).url = url ∧
    ((goto s f inputUrl opts fo).state.frames f).content = (s.frames f).content := by
  have hpres := closeChildrenLoop_preservesNav (closeFuel s) s f 0
  have hgoto : goto s f inputUrl opts fo = gotoPerform s f url opts fo := by
    simp only [goto, hres, hjs, Bool.false_eq_true, if_false, gotoNavigate, hpage, hdet, hpol]
  have hw2 : ((clearChildren (closeChildrenLoop (closeFuel s) s f 0) f).frames f).window =
      some w := by
    rw [clearChildren_frames_self]
    exact hloop.trans hwin
  have hcontent : ((applyReferrer
      (attachNewWindow
        (teardownWindow (clearChildren (closeChildrenLoop (closeFuel s) s f 0) f) f w) f)
      ((teardownWindow (clearChildren (closeChildrenLoop (closeFuel s) s f 0) f) f
        w).numWindows) opts).frames f).content = (s.frames f).content := by
    rw [applyReferrer_frames, attachNewWindow_frames_self, teardownWindow_frames_self,
      clearChildren_frames_self]
    exact (hpres.2.2.2 f).2
  rcases hfail with hfo | ⟨resp, hfo⟩ <;> subst hfo <;> rw [hgoto] <;>
    simp only [gotoPerform, hw2, hne, Bool.false_eq_true, if_false, noContentResult] <;>
    rw [fetchFail_frames] <;>
    exact ⟨rfl, hcontent⟩

theorem goto_fetch_failure_url_kept_witness :
    (getRelativeURL oneFrameState 0 "https://a.test/next" = .ok "https://a.test/next" ∧
      (oneFrameState.frames 0).window = some 0 ∧
      (oneFrameState.frames 0).content = "") ∧
    ((goto oneFrameState 0 "https://a.test/next" noOpts
        (.textError resp500 readError)).state.frames 0).url = "https://a.test/next" ∧
    ((goto oneFrameState 0 "https://a.test/next" noOpts
        (.textError resp500 readError)).state.frames 0).content =
      (oneFrameState.frames 0).content :=
  ⟨⟨rfl, rfl, rfl⟩,
    goto_fetch_failure_url_kept oneFrameState 0 "https://a.test/next" "https://a.test/next"
      noOpts (.textError resp500 readError) 0 0 readError rfl (by decide) (by decide) rfl rfl
      rfl rfl rfl (Or.inr ⟨resp500, rfl⟩)⟩

/-! ## The ready-state gate across a whole navigation -/

/-- C3 counterexample: with error capturing disabled and `javascript:`
code that raises, `goto` opens a ready-state task, schedules the deferred
evaluation, and settles; when the deferred tick runs, the raise from
`eval` propagates out of the timer callback *before* `endTask`, so the
gate is left open forever (one task started, none ended) — refuting the
claim that the gate is closed after the scheduled evaluation whether or
not error capturing is enabled and whether or not the code raises. -/
theorem goto_javascript_gate_left_open :
    (goto noCaptureState 0 "javascript:boom()" noOpts unusedFetch).scheduled =
      some boomTask ∧
    (goto noCaptureState 0 "javascript:boom()" noOpts unusedFetch).thrown = none ∧
    ((runScheduledEval (goto noCaptureState 0 "javascript:boom()" noOpts unusedFetch).state
        boomTask boomOracle).1.windows 0).tasksStarted = 1 ∧
    ((runScheduledEval (goto noCaptureState 0 "javascript:boom()" noOpts unusedFetch).state
        boomTask boomOracle).1.windows 0).tasksEnded = 0 ∧
    (runScheduledEval (goto noCaptureState 0 "javascript:boom()" noOpts unusedFetch).state
        boomTask boomOracle).2 = some boomError := by
  refine ⟨rfl, rfl, by decide, by decide, rfl⟩

theorem preservesNav_clearChildren (s : BrowserState) (f : Nat) :
    preservesNav s (clearChildren s f) :=
  preservesNav_updFrame _ _ _ rfl rfl

theorem preservesNav_teardownWindow (s : BrowserState) (f ow : Nat) :
    preservesNav s (teardownWindow s f ow) := by
  refine @preservesNav_trans _ (markWindowClosed s ow) _ ?_
    (@preservesNav_trans _ (destroyTaskManager (markWindowClosed s ow) f) _ ?_ ?_)
  · exact preservesNav_updWindowAt _ _ _ rfl rfl
  · exact preservesNav_updFrame _ _ _ rfl rfl
  · exact preservesNav_removeSettingsFor _ _

theorem attachNewWindow_windows (s : BrowserState) (f v : Nat) :
    (attachNewWindow s f).windows v =
      if v = s.numWindows then blankWindow else s.windows v := rfl

theorem startEnd_windows_self (s : BrowserState) (w : Nat) :
    ((endTask (startTask s w) w).windows w).tasksStarted = (s.windows w).tasksStarted + 1 ∧
    ((endTask (startTask s w) w).windows w).tasksEnded = (s.windows w).tasksEnded + 1 := by
  simp [endTask, startTask, updWindowAt]

theorem startEnd_windows_other (s : BrowserState) (w v : Nat) (h : v ≠ w) :
    (endTask (startTask s w) w).windows v = s.windows v := by
  simp [endTask, startTask, updWindowAt, h]

theorem startDispatchEnd_windows_self (s : BrowserState) (w : Nat) (e : DOMExceptionData) :
    ((endTask (dispatchErrorTo (startTask s w) w e) w).windows w).tasksStarted =
      (s.windows w).tasksStarted + 1 ∧
    ((endTask (dispatchErrorTo (startTask s w) w e) w).windows w).tasksEnded =
      (s.windows w).tasksEnded + 1 := by
  simp [endTask, dispatchErrorTo, startTask, updWindowAt]

theorem startDispatchEnd_windows_other (s : BrowserState) (w v : Nat) (e : DOMExceptionData)
    (h : v ≠ w) :
    (endTask (dispatchErrorTo (startTask s w) w e) w).windows v = s.windows v := by
  simp [endTask, dispatchErrorTo, startTask, updWindowAt, h]

theorem fetchTail_windows_other (X : BrowserState) (f nw : Nat) (url : String)
    (e : DOMExceptionData) (v : Nat) (hv : v ≠ nw) :
    (dispatchErrorTo (endTask (recordFetch (startTask (setFrameURL X f url) nw)) nw) nw
      e).windows v = X.windows v := by
  simp [dispatchErrorTo, endTask, recordFetch, startTask, setFrameURL, updWindowAt,
    updFrame, hv]

theorem successTail_windows_self (X : BrowserState) (f nw : Nat) (url txt : String) :
    ((endTask (setFrameContent (recordFetch (startTask (setFrameURL X f url) nw)) f txt)
        nw).windows nw).tasksStarted = (X.windows nw).tasksStarted + 1 ∧
    ((endTask (setFrameContent (recordFetch (startTask (setFrameURL X f url) nw)) f txt)
        nw).windows nw).tasksEnded = (X.windows nw).tasksEnded + 1 := by
  simp [endTask, setFrameContent, recordFetch, startTask, setFrameURL, updWindowAt, updFrame]

theorem successTail_windows_other (X : BrowserState) (f nw : Nat) (url txt : String)
    (v : Nat) (hv : v ≠ nw) :
    (endTask (setFrameContent (recordFetch (startTask (setFrameURL X f url) nw)) f txt)
      nw).windows v = X.windows v := by
  simp [endTask, setFrameContent, recordFetch, startTask, setFrameURL, updWindowAt,
    updFrame, hv]

/-- C3 amended: for every invocation of `goto` that returns without
throwing, once the navigation and its scheduled deferred evaluation (if
any) have settled without an uncaught error, every window's ready-state
tracker is either untouched or has exactly one more task started and
exactly one more task ended — the gate opened by the navigation is closed
exactly once and no gate is closed twice.  (When error capturing is
disabled and the scheduled `javascript:` code raises, the deferred tick
ends in an uncaught error and the gate is left open — the counterexample —
which is the case the no-uncaught-error hypothesis excludes.) -/
theorem goto_gate_balanced (s : BrowserState) (f : Nat) (inputUrl : String)
    (opts : GoToOptionsData) (fo : FetchOutcome)
    (evalO : String → Option DOMExceptionData)
    (hblank : windowsBlankFrom s)
    (hthrown : (goto s f inputUrl opts fo).thrown = none)
    (htick : (navSettle s f inputUrl opts fo evalO).2 = none) :
    ∀ v, (((navSettle s f inputUrl opts fo evalO).1.windows v).tasksStarted =
            (s.windows v).tasksStarted ∧
          ((navSettle s f inputUrl opts fo evalO).1.windows v).tasksEnded =
            (s.windows v).tasksEnded) ∨
         (((navSettle s f inputUrl opts fo evalO).1.windows v).tasksStarted =
            (s.windows v).tasksStarted + 1 ∧
          ((navSettle s f inputUrl opts fo evalO).1.windows v).tasksEnded =
            (s.windows v).tasksEnded + 1) := by
  intro v
  cases hres : getRelativeURL s f inputUrl with
  | error e =>
    have hns : navSettle s f inputUrl opts fo evalO = (s, none) := by
      simp only [navSettle, goto, hres, thrownResult]
    rw [hns]
    exact Or.inl ⟨rfl, rfl⟩
  | ok url =>
    cases hjs : strStartsWith url "javascript:" with
    | true =>
      cases hpage : (s.frames f).page with
      | none =>
        have hc : (goto s f inputUrl opts fo).thrown = some nullAccessError := by
          simp only [goto, hres, hjs, if_true, gotoJavascript, hpage, thrownResult]
        rw [hc] at hthrown
        simp at hthrown
      | some p =>
        cases hdis : s.settings.disableJavaScriptEvaluation with
        | true =>
          have hns : navSettle s f inputUrl opts fo evalO = (s, none) := by
            simp only [navSettle, goto, hres, hjs, if_true, gotoJavascript, hpage, hdis,
              if_true, noContentResult]
          rw [hns]
          exact Or.inl ⟨rfl, rfl⟩
        | false =>
          cases hwin : (s.frames f).window with
          | none =>
            have hc : (goto s f inputUrl opts fo).thrown = some nullAccessError := by
              simp only [goto, hres, hjs, if_true, gotoJavascript, hpage, hdis,
                Bool.false_eq_true, if_false, hwin, thrownResult]
            rw [hc] at hthrown
            simp at hthrown
          | some w0 =>
            cases hmw : ((startTask s w0).frames
                ((startTask s w0).pages p).mainFrame).window with
            | none =>
              have hc : (goto s f inputUrl opts fo).thrown = some nullAccessError := by
                simp only [goto, hres, hjs, if_true, gotoJavascript, hpage, hdis,
                  Bool.false_eq_true, if_false, hwin, hmw, thrownResult]
              rw [hc] at hthrown
              simp at hthrown
            | some mw =>
              have hgoto : goto s f inputUrl opts fo =
                  { state := startTask s w0
                    response := none
                    scheduled := some { frameId := f, jsUrl := url, readyStateWindow := w0 }
                    thrown := none } := by
                simp only [goto, hres, hjs, if_true, gotoJavascript, hpage, hdis,
                  Bool.false_eq_true, if_false, hwin, hmw]
              have hns : navSettle s f inputUrl opts fo evalO =
                  runScheduledEval (startTask s w0)
                    { frameId := f, jsUrl := url, readyStateWindow := w0 } evalO := by
                simp only [navSettle, hgoto]
              rw [hns] at htick ⊢
              have hfr : (startTask s w0).frames = s.frames := rfl
              have hst : (startTask s w0).settings = s.settings := rfl
              cases hcap : s.settings.disableErrorCapturing with
              | true =>
                cases hev : evalO ("//# sourceURL=" ++ (s.frames f).url ++ "\n" ++
                    stripJavascriptScheme url) with
                | some e =>
                  have hrun : runScheduledEval (startTask s w0)
                      { frameId := f, jsUrl := url, readyStateWindow := w0 } evalO =
                      (startTask s w0, some e) := by
                    simp only [runScheduledEval, hfr, hst, hpage, hcap, if_true, hwin, hev]
                  rw [hrun] at htick
                  simp at htick
                | none =>
                  have hrun : runScheduledEval (startTask s w0)
                      { frameId := f, jsUrl := url, readyStateWindow := w0 } evalO =
                      (endTask (startTask s w0) w0, none) := by
                    simp only [runScheduledEval, hfr, hst, hpage, hcap, if_true, hwin, hev]
                  rw [hrun]
                  by_cases hv : v = w0
                  · subst hv
                    exact Or.inr (startEnd_windows_self s v)
                  · rw [startEnd_windows_other s w0 v hv]
                    exact Or.inl ⟨rfl, rfl⟩
              | false =>
                cases hev : evalO ("//# sourceURL=" ++ (s.frames f).url ++ "\n" ++
                    stripJavascriptScheme url) with
                | some e =>
                  have hrun : runScheduledEval (startTask s w0)
                      { frameId := f, jsUrl := url, readyStateWindow := w0 } evalO =
                      (endTask (dispatchErrorTo (startTask s w0) w0 e) w0, none) := by
                    simp only [runScheduledEval, hfr, hst, hpage, hcap, Bool.false_eq_true,
                      if_false, hwin, hev]
                  rw [hrun]
                  by_cases hv : v = w0
                  · subst hv
                    exact Or.inr (startDispatchEnd_windows_self s v e)
                  · rw [startDispatchEnd_windows_other s w0 v e hv]
                    exact Or.inl ⟨rfl, rfl⟩
                | none =>
                  have hrun : runScheduledEval (startTask s w0)
                      { frameId := f, jsUrl := url, readyStateWindow := w0 } evalO =
                      (endTask (startTask s w0) w0, none) := by
                    simp only [runScheduledEval, hfr, hst, hpage, hcap, Bool.false_eq_true,
                      if_false, hwin, hev]
                  rw [hrun]
                  by_cases hv : v = w0
                  · subst hv
                    exact Or.inr (startEnd_windows_self s v)
                  · rw [startEnd_windows_other s w0 v hv]
                    exact Or.inl ⟨rfl, rfl⟩
    | false =>
      cases hpage : (s.frames f).page with
      | none =>
        have hc : (goto s f inputUrl opts fo).thrown = some nullAccessError := by
          simp only [goto, hres, hjs, Bool.false_eq_true, if_false, gotoNavigate, hpage,
            thrownResult]
        rw [hc] at hthrown
        simp at hthrown
      | some p =>
        cases hdet : isDetachedMainFrame s f with
        | true =>
          cases hfb : s.settings.browserNavigation.contains "url-set-fallback" with
          | true =>
            have hns : navSettle s f inputUrl opts fo evalO = (setFrameURL s f url, none) := by
              simp only [navSettle, goto, hres, hjs, Bool.false_eq_true, if_false,
                gotoNavigate, hpage, hdet, if_true, rejectResult, hfb, noContentResult]
            rw [hns]
            exact Or.inl ⟨rfl, rfl⟩
          | false =>
            have hns : navSettle s f inputUrl opts fo evalO = (s, none) := by
              simp only [navSettle, goto, hres, hjs, Bool.false_eq_true, if_false,
                gotoNavigate, hpage, hdet, if_true, rejectResult, hfb, noContentResult]
            rw [hns]
            exact Or.inl ⟨rfl, rfl⟩
        | false =>
          cases hpol : isBrowserNavigationAllowed s f (s.frames f).url url with
          | error e =>
            have hc : (goto s f inputUrl opts fo).thrown = some e := by
              simp only [goto, hres, hjs, Bool.false_eq_true, if_false, gotoNavigate,
                hpage, hdet, if_false, hpol, thrownResult]
            rw [hc] at hthrown
            simp at hthrown
          | ok b =>
            cases b with
            | false =>
              cases hfb : s.settings.browserNavigation.contains "url-set-fallback" with
              | true =>
                have hns : navSettle s f inputUrl opts fo evalO =
                    (setFrameURL s f url, none) := by
                  simp only [navSettle, goto, hres, hjs, Bool.false_eq_true, if_false,
                    gotoNavigate, hpage, hdet, hpol, rejectResult, hfb, if_true,
                    noContentResult]
                rw [hns]
                exact Or.inl ⟨rfl, rfl⟩
              | false =>
                have hns : navSettle s f inputUrl opts fo evalO = (s, none) := by
                  simp only [navSettle, goto, hres, hjs, Bool.false_eq_true, if_false,
                    gotoNavigate, hpage, hdet, hpol, rejectResult, hfb, noContentResult]
                rw [hns]
                exact Or.inl ⟨rfl, rfl⟩
            | true =>
              cases hw2 : ((clearChildren (closeChildrenLoop (closeFuel s) s f 0)
                  f).frames f).window with
              | none =>
                have hc : (goto s f inputUrl opts fo).thrown = some nullAccessError := by
                  simp only [goto, hres, hjs, Bool.false_eq_true, if_false, gotoNavigate,
                    hpage, hdet, hpol, gotoPerform, hw2, thrownResult]
                rw [hc] at hthrown
                simp at hthrown
              | some ow =>
                have hpres : preservesNav s
                    (teardownWindow (clearChildren
                      (closeChildrenLoop (closeFuel s) s f 0) f) f ow) :=
                  @preservesNav_trans _ (closeChildrenLoop (closeFuel s) s f 0) _
                    (closeChildrenLoop_preservesNav (closeFuel s) s f 0)
                    (@preservesNav_trans _
                      (clearChildren (closeChildrenLoop (closeFuel s) s f 0) f) _
                      (preservesNav_clearChildren _ _)
                      (preservesNav_teardownWindow _ _ _))
                have hnum : (teardownWindow (clearChildren
                    (closeChildrenLoop (closeFuel s) s f 0) f) f ow).numWindows =
                    s.numWindows := hpres.1
                have hsblank : s.windows ((teardownWindow (clearChildren
                    (closeChildrenLoop (closeFuel s) s f 0) f) f ow).numWindows) =
                    blankWindow := by
                  apply hblank
                  rw [hnum]
                cases hcond : (url == "" || strStartsWith url "about:") with
                | true =>
                  have hns : navSettle s f inputUrl opts fo evalO =
                      (applyReferrer
                        (attachNewWindow (teardownWindow (clearChildren
                          (closeChildrenLoop (closeFuel s) s f 0) f) f ow) f)
                        ((teardownWindow (clearChildren
                          (closeChildrenLoop (closeFuel s) s f 0) f) f ow).numWindows)
                        opts, none) := by
                    simp only [navSettle, goto, hres, hjs, Bool.false_eq_true, if_false,
                      gotoNavigate, hpage, hdet, hpol, gotoPerform, hw2, hcond, if_true,
                      noContentResult]
                  rw [hns]
                  have hac := applyReferrer_windows_counts
                    (attachNewWindow (teardownWindow (clearChildren
                      (closeChildrenLoop (closeFuel s) s f 0) f) f ow) f)
                    ((teardownWindow (clearChildren
                      (closeChildrenLoop (closeFuel s) s f 0) f) f ow).numWindows) opts v
                  rw [hac.1, hac.2.1, attachNewWindow_windows]
                  by_cases hv : v = (teardownWindow (clearChildren
                      (closeChildrenLoop (closeFuel s) s f 0) f) f ow).numWindows
                  · rw [if_pos hv, hv, hsblank]
                    exact Or.inl ⟨rfl, rfl⟩
                  · rw [if_neg hv]
                    exact Or.inl ⟨(hpres.2.2.1 v).1, (hpres.2.2.1 v).2⟩
                | false =>
                  cases fo with
                  | fetchError e =>
                    have hns : navSettle s f inputUrl opts (FetchOutcome.fetchError e) evalO =
                        (dispatchErrorTo (endTask (recordFetch (startTask (setFrameURL
                          (applyReferrer
                            (attachNewWindow (teardownWindow (clearChildren
                              (closeChildrenLoop (closeFuel s) s f 0) f) f ow) f)
                            ((teardownWindow (clearChildren
                              (closeChildrenLoop (closeFuel s) s f 0) f) f
                              ow).numWindows) opts)
                          f url)
                          ((teardownWindow (clearChildren
                            (closeChildrenLoop (closeFuel s) s f 0) f) f
                            ow).numWindows)))
                          ((teardownWindow (clearChildren
                            (closeChildrenLoop (closeFuel s) s f 0) f) f
                            ow).numWindows))
                          ((teardownWindow (clearChildren
                            (closeChildrenLoop (closeFuel s) s f 0) f) f
                            ow).numWindows) e, none) := by
                      simp only [navSettle, goto, hres, hjs, Bool.false_eq_true, if_false,
                        gotoNavigate, hpage, hdet, hpol, gotoPerform, hw2, hcond,
                        noContentResult]
                    rw [hns]
                    have hac := applyReferrer_windows_counts
                      (attachNewWindow (teardownWindow (clearChildren
                        (closeChildrenLoop (closeFuel s) s f 0) f) f ow) f)
                      ((teardownWindow (clearChildren
                        (closeChildrenLoop (closeFuel s) s f 0) f) f ow).numWindows) opts v
                    by_cases hv : v = (teardownWindow (clearChildren
                        (closeChildrenLoop (closeFuel s) s f 0) f) f ow).numWindows
                    · refine Or.inr ?_
                      rw [hv]
                      rw [(fetchFail_windows _ f _ url e).1, (fetchFail_windows _ f _ url e).2.1]
                      have hacn := applyReferrer_windows_counts
                        (attachNewWindow (teardownWindow (clearChildren
                          (closeChildrenLoop (closeFuel s) s f 0) f) f ow) f)
                        ((teardownWindow (clearChildren
                          (closeChildrenLoop (closeFuel s) s f 0) f) f ow).numWindows) opts
                        ((teardownWindow (clearChildren
                          (closeChildrenLoop (closeFuel s) s f 0) f) f ow).numWindows)
                      rw [hacn.1, hacn.2.1, attachNewWindow_windows, if_pos rfl, hsblank]
                      exact ⟨rfl, rfl⟩
                    · rw [fetchTail_windows_other _ f _ url e v hv, hac.1, hac.2.1,
                        attachNewWindow_windows, if_neg hv]
                      exact Or.inl ⟨(hpres.2.2.1 v).1, (hpres.2.2.1 v).2⟩
                  | textError resp e =>
                    have hns : navSettle s f inputUrl opts (FetchOutcome.textError resp e) evalO =
                        (dispatchErrorTo (endTask (recordFetch (startTask (setFrameURL
                          (applyReferrer
                            (attachNewWindow (teardownWindow (clearChildren
                              (closeChildrenLoop (closeFuel s) s f 0) f) f ow) f)
                            ((teardownWindow (clearChildren
                              (closeChildrenLoop (closeFuel s) s f 0) f) f
                              ow).numWindows) opts)
                          f url)
                          ((teardownWindow (clearChildren
                            (closeChildrenLoop (closeFuel s) s f 0) f) f
                            ow).numWindows)))
                          ((teardownWindow (clearChildren
                            (closeChildrenLoop (closeFuel s) s f 0) f) f
                            ow).numWindows))
                          ((teardownWindow (clearChildren
                            (closeChildrenLoop (closeFuel s) s f 0) f) f
                            ow).numWindows) e, none) := by
                      simp only [navSettle, goto, hres, hjs, Bool.false_eq_true, if_false,
                        gotoNavigate, hpage, hdet, hpol, gotoPerform, hw2, hcond,
                        noContentResult]
                    rw [hns]
                    have hac := applyReferrer_windows_counts
                      (attachNewWindow (teardownWindow (clearChildren
                        (closeChildrenLoop (closeFuel s) s f 0) f) f ow) f)
                      ((teardownWindow (clearChildren
                        (closeChildrenLoop (closeFuel s) s f 0) f) f ow).numWindows) opts v
                    by_cases hv : v = (teardownWindow (clearChildren
                        (closeChildrenLoop (closeFuel s) s f 0) f) f ow).numWindows
                    · refine Or.inr ?_
                      rw [hv]
                      rw [(fetchFail_windows _ f _ url e).1, (fetchFail_windows _ f _ url e).2.1]
                      have hacn := applyReferrer_windows_counts
                        (attachNewWindow (teardownWindow (clearChildren
                          (closeChildrenLoop (closeFuel s) s f 0) f) f ow) f)
                        ((teardownWindow (clearChildren
                          (closeChildrenLoop (closeFuel s) s f 0) f) f ow).numWindows) opts
                        ((teardownWindow (clearChildren
                          (closeChildrenLoop (closeFuel s) s f 0) f) f ow).numWindows)
                      rw [hacn.1, hacn.2.1, attachNewWindow_windows, if_pos rfl, hsblank]
                      exact ⟨rfl, rfl⟩
                    · rw [fetchTail_windows_other _ f _ url e v hv, hac.1, hac.2.1,
                        attachNewWindow_windows, if_neg hv]
                      exact Or.inl ⟨(hpres.2.2.1 v).1, (hpres.2.2.1 v).2⟩
                  | success resp txt =>
                    have hns : navSettle s f inputUrl opts (FetchOutcome.success resp txt) evalO =
                        (endTask (setFrameContent (recordFetch (startTask (setFrameURL
                          (applyReferrer
                            (attachNewWindow (teardownWindow (clearChildren
                              (closeChildrenLoop (closeFuel s) s f 0) f) f ow) f)
                            ((teardownWindow (clearChildren
                              (closeChildrenLoop (closeFuel s) s f 0) f) f
                              ow).numWindows) opts)
                          f url)
                          ((teardownWindow (clearChildren
                            (closeChildrenLoop (closeFuel s) s f 0) f) f
                            ow).numWindows))) f txt)
                          ((teardownWindow (clearChildren
                            (closeChildrenLoop (closeFuel s) s f 0) f) f
                            ow).numWindows), none) := by
                      simp only [navSettle, goto, hres, hjs, Bool.false_eq_true, if_false,
                        gotoNavigate, hpage, hdet, hpol, gotoPerform, hw2, hcond,
                        noContentResult]
                    rw [hns]
                    have hac := applyReferrer_windows_counts
                      (attachNewWindow (teardownWindow (clearChildren
                        (closeChildrenLoop (closeFuel s) s f 0) f) f ow) f)
                      ((teardownWindow (clearChildren
                        (closeChildrenLoop (closeFuel s) s f 0) f) f ow).numWindows) opts v
                    by_cases hv : v = (teardownWindow (clearChildren
                        (closeChildrenLoop (closeFuel s) s f 0) f) f ow).numWindows
                    · refine Or.inr ?_
                      rw [hv]
                      rw [(successTail_windows_self _ f _ url txt).1,
                        (successTail_windows_self _ f _ url txt).2]
                      have hacn := applyReferrer_windows_counts
                        (attachNewWindow (teardownWindow (clearChildren
                          (closeChildrenLoop (closeFuel s) s f 0) f) f ow) f)
                        ((teardownWindow (clearChildren
                          (closeChildrenLoop (closeFuel s) s f 0) f) f ow).numWindows) opts
                        ((teardownWindow (clearChildren
                          (closeChildrenLoop (closeFuel s) s f 0) f) f ow).numWindows)
                      rw [hacn.1, hacn.2.1, attachNewWindow_windows, if_pos rfl, hsblank]
                      exact ⟨rfl, rfl⟩
                    · rw [successTail_windows_other _ f _ url txt v hv, hac.1, hac.2.1,
                        attachNewWindow_windows, if_neg hv]
                      exact Or.inl ⟨(hpres.2.2.1 v).1, (hpres.2.2.1 v).2⟩

theorem goto_gate_balanced_witness :
    ((goto oneFrameState 0 "javascript:boom()" noOpts unusedFetch).thrown = none ∧
      (navSettle oneFrameState 0 "javascript:boom()" noOpts unusedFetch boomOracle).2 =
        none) ∧
    ((((navSettle oneFrameState 0 "javascript:boom()" noOpts unusedFetch
          boomOracle).1.windows 0).tasksStarted = (oneFrameState.windows 0).tasksStarted ∧
      ((navSettle oneFrameState 0 "javascript:boom()" noOpts unusedFetch
          boomOracle).1.windows 0).tasksEnded = (oneFrameState.windows 0).tasksEnded) ∨
     (((navSettle oneFrameState 0 "javascript:boom()" noOpts unusedFetch
          boomOracle).1.windows 0).tasksStarted =
        (oneFrameState.windows 0).tasksStarted + 1 ∧
      ((navSettle oneFrameState 0 "javascript:boom()" noOpts unusedFetch
          boomOracle).1.windows 0).tasksEnded =
        (oneFrameState.windows 0).tasksEnded + 1)) :=
  ⟨⟨rfl, rfl⟩,
    goto_gate_balanced oneFrameState 0 "javascript:boom()" noOpts unusedFetch boomOracle
      (fun _ _ => rfl) rfl rfl 0⟩

end HappyDom
